import Mathlib

/- Shallow embedding of src/src/ccl_halomod.c (halo-model matter power spectrum).

   Modeling conventions:
   - A C `double` is modeled by `D := Option ℚ` where `some q` is a finite value
     and `none` is the NaN sentinel (written `NANd`).  Arithmetic is strict in
     `none`, mirroring IEEE NaN propagation; the comparison `dEq` models the C
     `==` on doubles, which is false whenever either operand is NaN.
     (Division by zero is mapped to `some 0` by the rational convention; no
     theorem below depends on that corner.)
   - The mutable error channel (the int pointed to by `status` together with
     `cosmo->status_message`) is modeled by the state `St`.  Every external
     collaborator `f(cosmo, args..., status)` is a value-pure, status-mutating
     function, so it is modeled by two fields of the environment `Cosmo`:
     a value function `f` and a status effect `f_e`; the C call
     `x = f(args..., status)` becomes `x := env.f args` together with
     `s := env.f_e args s`, applied in source order.
   - No branch of ccl_halomod.c reads the current status, so each embedded
     function splits exactly into a value component `...Val` and a status
     component `...St`; the function itself pairs the two.
   - `gsl_integration_qag` is modeled by two environment fields: `quadPts`
     gives the abscissae at which the quadrature evaluates the integrand
     (driving the integrand's status effects, threaded left to right), and
     `quadOut` gives the pair (return code, result).  Both receive the
     integrand's value function and all the numeric arguments the C code
     passes to `gsl_integration_qag`.
   - The configuration macros HM_MMIN, HM_MMAX, HM_EPSABS, HM_EPSREL,
     HM_LIMIT, HM_INT_METHOD come from ccl_halomod.h, which is not under
     src/; they are abstract environment fields.  Likewise the error codes
     come from ccl_error.h and are distinct abstract integers.
-/

/-- IEEE double: `some q` is a finite value, `none` is the NaN sentinel. -/
abbrev D := Option ℚ

/-- The NaN sentinel returned by the C code on failure. -/
def NANd : D := none

instance : Add D := ⟨fun x y => match x, y with | some a, some b => some (a + b) | _, _ => none⟩

instance : Sub D := ⟨fun x y => match x, y with | some a, some b => some (a - b) | _, _ => none⟩

instance : Mul D := ⟨fun x y => match x, y with | some a, some b => some (a * b) | _, _ => none⟩

instance : Div D := ⟨fun x y => match x, y with | some a, some b => some (a / b) | _, _ => none⟩

instance : Neg D := ⟨fun x => match x with | some a => some (-a) | none => none⟩

instance (n : ℕ) : OfNat D n := ⟨some ((n : ℕ) : ℚ)⟩

instance : OfScientific D := ⟨fun m b e => some (OfScientific.ofScientific m b e)⟩

/-- C floating-point equality `x == y` on doubles: false whenever either side is NaN. -/
def dEq : D → D → Bool
  | some x, some y => decide (x = y)
  | _, _ => false

/-- The error channel: the int pointed to by `status` and `cosmo->status_message`. -/
structure St where
  code : ℤ
  message : String
  deriving DecidableEq

/- Modelled from the spec: the error codes below come from ccl_error.h and the
   GSL headers, neither of which is under src/.  They are distinct abstract
   integers; GSL_SUCCESS really is 0. -/
def GSL_SUCCESS : ℤ := 0

def CCL_ERROR_CONC_DV : ℤ := 101

def CCL_ERROR_HALOCONC : ℤ := 102

def CCL_ERROR_HALOWIN : ℤ := 103

def CCL_ERROR_ONE_HALO_INT : ℤ := 104

def CCL_ERROR_TWO_HALO_INT : ℤ := 105

/-- Modelled from the spec: the species label for matter, an enum from outside src/. -/
def ccl_species_m_label : ℤ := 0

/-- Concentration-model selector (`ccl_conc_label`); the fourth constructor models
an out-of-enumeration value reaching the `default` branch of the C switch. -/
inductive ccl_conc_label where
  | ccl_bhattacharya2011
  | ccl_duffy2008_virial
  | ccl_constant_concentration
  | ccl_conc_invalid
  deriving DecidableEq

/-- Window-function selector (`ccl_win_label`); the second constructor models an
out-of-enumeration value reaching the `default` branch of the C switch. -/
inductive ccl_win_label where
  | ccl_nfw
  | ccl_win_invalid
  deriving DecidableEq

/-- Message written by the Bhattacharya ModelMismatch branch. -/
def bhat_message : String := "ccl_halomod.c: halo_concentration(): Bhattacharya (2011) concentration relation only valid for Delta_v = 200 \n"

/-- Message written by the Duffy ModelMismatch branch. -/
def duffy_message : String := "ccl_halomod.c: halo_concentration(): Duffy (2008) virial concentration called with non-virial Delta_v\n"

/-- Message written on one-halo quadrature non-convergence. -/
def one_halo_message : String := "ccl_halomod.c: one_halo_integral(): Integration failure\n"

/-- Message written on two-halo quadrature non-convergence. -/
def two_halo_message : String := "ccl_halomod.c: two_halo_integral(): Integration failure\n"

/-- An error write: `*status = c; strcpy(cosmo->status_message, m)`. -/
def setStatus (c : ℤ) (m : String) (_s : St) : St := { code := c, message := m }

/-- The cosmology context together with all external collaborators consumed by
ccl_halomod.c: the cosmological parameter `h`, the collaborator functions of
section 6 of the spec (value part and status-effect part), the libm/GSL special
functions, the HM_* configuration constants and the adaptive quadrature. -/
structure Cosmo where
  h : D
  growth : D → D
  growth_e : D → St → St
  sigmaM : D → D → D
  sigmaM_e : D → D → St → St
  dv : D → D
  dv_e : D → St → St
  rdelta : D → D → D → D
  rdelta_e : D → D → D → St → St
  rho_x : D → ℤ → ℤ → D
  rho_x_e : D → ℤ → ℤ → St → St
  massfunc : D → D → D → D
  massfunc_e : D → D → D → St → St
  hbias : D → D → D → D
  hbias_e : D → D → D → St → St
  linpower : D → D → D
  linpower_e : D → D → St → St
  sin : D → D
  cos : D → D
  log : D → D
  log10 : D → D
  pow : D → D → D
  Si : D → D
  Ci : D → D
  mmin : ℚ
  mmax : ℚ
  epsabs : ℚ
  epsrel : ℚ
  limit : ℕ
  method : ℤ
  quadPts : (ℚ → D) → D → D → ℚ → ℚ → ℕ → ℤ → List ℚ
  quadOut : (ℚ → D) → D → D → ℚ → ℚ → ℕ → ℤ → ℤ × D

/-- Value part of `u_nfw_c` (lines 18-49): analytic Fourier transform of the NFW
profile, normalised so that U(k=0) = 1. -/
def u_nfw_cVal (env : Cosmo) (c halomass k a : D) : D :=
  let Delta_v := env.dv a
  if dEq k 0 then 1
  else
    let rv := env.rdelta halomass a Delta_v
    let rs := rv / c
    let ks := k * rs
    let f1 := env.sin ks * (env.Si (ks * (1 + c)) - env.Si ks)
    let f2 := env.cos ks * (env.Ci (ks * (1 + c)) - env.Ci ks)
    let f3 := env.sin (c * ks) / (ks * (1 + c))
    let fc := env.log (1 + c) - c / (1 + c)
    (f1 + f2 - f3) / fc

/-- Status part of `u_nfw_c`: Dv_BryanNorman is consulted before the k == 0
test; r_delta only on the general branch. -/
def u_nfw_cSt (env : Cosmo) (_c halomass k a : D) (s : St) : St :=
  let s := env.dv_e a s
  if dEq k 0 then s
  else env.rdelta_e halomass a (env.dv a) s

/-- `u_nfw_c` (lines 18-49). -/
def u_nfw_c (env : Cosmo) (c halomass k a : D) (s : St) : D × St :=
  (u_nfw_cVal env c halomass k a, u_nfw_cSt env c halomass k a s)

/-- Value part of `ccl_halo_concentration` (lines 55-105). -/
def ccl_halo_concentrationVal (env : Cosmo) (halomass a odelta : D) (label : ccl_conc_label) : D :=
  match label with
  | .ccl_bhattacharya2011 =>
    if !(dEq odelta 200) then NANd
    else
      let gz := env.growth a
      let g0 := env.growth 1
      let delta_c : D := 1.686
      let nu := delta_c / env.sigmaM halomass a
      9 * env.pow nu (-0.29) * env.pow (gz / g0) 1.15
  | .ccl_duffy2008_virial =>
    if !(dEq odelta (env.dv a)) then NANd
    else
      let Mpiv := (2e12 : D) / env.h
      let A : D := 7.85
      let B : D := -0.081
      let C : D := -0.71
      A * env.pow (halomass / Mpiv) B * env.pow a (-C)
  | .ccl_constant_concentration => 4
  | .ccl_conc_invalid => NANd

/-- Status part of `ccl_halo_concentration`.  The default branch calls
`ccl_raise_exception`, which does not touch `status_message`, so only the
code is set there. -/
def ccl_halo_concentrationSt (env : Cosmo) (halomass a odelta : D) (label : ccl_conc_label) (s : St) : St :=
  match label with
  | .ccl_bhattacharya2011 =>
    if !(dEq odelta 200) then setStatus CCL_ERROR_CONC_DV bhat_message s
    else
      let s := env.growth_e a s
      let s := env.growth_e 1 s
      env.sigmaM_e halomass a s
  | .ccl_duffy2008_virial =>
    let s := env.dv_e a s
    if !(dEq odelta (env.dv a)) then setStatus CCL_ERROR_CONC_DV duffy_message s
    else s
  | .ccl_constant_concentration => s
  | .ccl_conc_invalid => { s with code := CCL_ERROR_HALOCONC }

/-- `ccl_halo_concentration` (lines 55-105). -/
def ccl_halo_concentration (env : Cosmo) (halomass a odelta : D) (label : ccl_conc_label) (s : St) : D × St :=
  (ccl_halo_concentrationVal env halomass a odelta label,
   ccl_halo_concentrationSt env halomass a odelta label s)

/-- Value part of `window_function` (lines 108-134).  Note the C source asks
`ccl_rho_x` for the density at scale factor 1 with is_comoving = 1, not at the
requested scale factor. -/
def window_functionVal (env : Cosmo) (m k a odelta : D) (label : ccl_win_label) : D :=
  match label with
  | .ccl_nfw =>
    let rho_matter := env.rho_x 1 ccl_species_m_label 1
    let c := ccl_halo_concentrationVal env m a odelta .ccl_duffy2008_virial
    m * u_nfw_cVal env c m k a / rho_matter
  | .ccl_win_invalid => NANd

/-- Status part of `window_function`; the default branch calls
`ccl_raise_exception`, which only sets the code. -/
def window_functionSt (env : Cosmo) (m k a odelta : D) (label : ccl_win_label) (s : St) : St :=
  match label with
  | .ccl_nfw =>
    let s := env.rho_x_e 1 ccl_species_m_label 1 s
    let c := ccl_halo_concentrationVal env m a odelta .ccl_duffy2008_virial
    let s := ccl_halo_concentrationSt env m a odelta .ccl_duffy2008_virial s
    u_nfw_cSt env c m k a s
  | .ccl_win_invalid => { s with code := CCL_ERROR_HALOWIN }

/-- `window_function` (lines 108-134). -/
def window_function (env : Cosmo) (m k a odelta : D) (label : ccl_win_label) (s : St) : D × St :=
  (window_functionVal env m k a odelta label, window_functionSt env m k a odelta label s)

/-- Value part of `one_halo_integrand` (lines 144-157). -/
def one_halo_integrandVal (env : Cosmo) (k a : D) (log10mass : ℚ) : D :=
  let halomass := env.pow 10 (some log10mass)
  let Delta_v := env.dv a
  let wk := window_functionVal env halomass k a Delta_v .ccl_nfw
  let dn_dlogM := env.massfunc halomass a Delta_v
  dn_dlogM * env.pow wk 2

/-- Status part of `one_halo_integrand`; effects in source order:
Dv_BryanNorman, window_function, ccl_massfunc. -/
def one_halo_integrandSt (env : Cosmo) (k a : D) (log10mass : ℚ) (s : St) : St :=
  let halomass := env.pow 10 (some log10mass)
  let Delta_v := env.dv a
  let s := env.dv_e a s
  let s := window_functionSt env halomass k a Delta_v .ccl_nfw s
  env.massfunc_e halomass a Delta_v s

/-- `one_halo_integrand` (lines 144-157). -/
def one_halo_integrand (env : Cosmo) (k a : D) (log10mass : ℚ) (s : St) : D × St :=
  (one_halo_integrandVal env k a log10mass, one_halo_integrandSt env k a log10mass s)

/-- Value part of `two_halo_integrand` (lines 204-220). -/
def two_halo_integrandVal (env : Cosmo) (k a : D) (log10mass : ℚ) : D :=
  let halomass := env.pow 10 (some log10mass)
  let Delta_v := env.dv a
  let wk := window_functionVal env halomass k a Delta_v .ccl_nfw
  let dn_dlogM := env.massfunc halomass a Delta_v
  let b := env.hbias halomass a Delta_v
  b * dn_dlogM * wk

/-- Status part of `two_halo_integrand`; effects in source order:
Dv_BryanNorman, window_function, ccl_massfunc, ccl_halo_bias. -/
def two_halo_integrandSt (env : Cosmo) (k a : D) (log10mass : ℚ) (s : St) : St :=
  let halomass := env.pow 10 (some log10mass)
  let Delta_v := env.dv a
  let s := env.dv_e a s
  let s := window_functionSt env halomass k a Delta_v .ccl_nfw s
  let s := env.massfunc_e halomass a Delta_v s
  env.hbias_e halomass a Delta_v s

/-- `two_halo_integrand` (lines 204-220). -/
def two_halo_integrand (env : Cosmo) (k a : D) (log10mass : ℚ) (s : St) : D × St :=
  (two_halo_integrandVal env k a log10mass, two_halo_integrandSt env k a log10mass s)

/-- Value part of `one_halo_integral` (lines 160-194): the quadrature outcome
decides between the result, returned unscaled, and NaN. -/
def one_halo_integralVal (env : Cosmo) (k a : D) : D :=
  let log10mmin := env.log10 (some env.mmin)
  let log10mmax := env.log10 (some env.mmax)
  let out := env.quadOut (one_halo_integrandVal env k a) log10mmin log10mmax
      env.epsabs env.epsrel env.limit env.method
  if out.1 ≠ GSL_SUCCESS then NANd else out.2

/-- Status part of `one_halo_integral`.  The integrand writes into the local
`one_halo_integral_status` (initialised to 0) but shares the message buffer
`cosmo->status_message`; after the quadrature the local int is discarded, so on
success the caller's code is untouched and only the message writes survive.
On failure the caller's code and message are overwritten. -/
def one_halo_integralSt (env : Cosmo) (k a : D) (s : St) : St :=
  let log10mmin := env.log10 (some env.mmin)
  let log10mmax := env.log10 (some env.mmax)
  let pts := env.quadPts (one_halo_integrandVal env k a) log10mmin log10mmax
      env.epsabs env.epsrel env.limit env.method
  let sLocal := pts.foldl (fun t lm => one_halo_integrandSt env k a lm t)
      { code := 0, message := s.message }
  let out := env.quadOut (one_halo_integrandVal env k a) log10mmin log10mmax
      env.epsabs env.epsrel env.limit env.method
  if out.1 ≠ GSL_SUCCESS then { code := CCL_ERROR_ONE_HALO_INT, message := one_halo_message }
  else { code := s.code, message := sLocal.message }

/-- `one_halo_integral` (lines 160-194). -/
def one_halo_integral (env : Cosmo) (k a : D) (s : St) : D × St :=
  (one_halo_integralVal env k a, one_halo_integralSt env k a s)

/-- Value part of `two_halo_integral` (lines 223-257). -/
def two_halo_integralVal (env : Cosmo) (k a : D) : D :=
  let log10mmin := env.log10 (some env.mmin)
  let log10mmax := env.log10 (some env.mmax)
  let out := env.quadOut (two_halo_integrandVal env k a) log10mmin log10mmax
      env.epsabs env.epsrel env.limit env.method
  if out.1 ≠ GSL_SUCCESS then NANd else out.2

/-- Status part of `two_halo_integral`; same local-status pattern as the
one-halo integral. -/
def two_halo_integralSt (env : Cosmo) (k a : D) (s : St) : St :=
  let log10mmin := env.log10 (some env.mmin)
  let log10mmax := env.log10 (some env.mmax)
  let pts := env.quadPts (two_halo_integrandVal env k a) log10mmin log10mmax
      env.epsabs env.epsrel env.limit env.method
  let sLocal := pts.foldl (fun t lm => two_halo_integrandSt env k a lm t)
      { code := 0, message := s.message }
  let out := env.quadOut (two_halo_integrandVal env k a) log10mmin log10mmax
      env.epsabs env.epsrel env.limit env.method
  if out.1 ≠ GSL_SUCCESS then { code := CCL_ERROR_TWO_HALO_INT, message := two_halo_message }
  else { code := s.code, message := sLocal.message }

/-- `two_halo_integral` (lines 223-257). -/
def two_halo_integral (env : Cosmo) (k a : D) (s : St) : D × St :=
  (two_halo_integralVal env k a, two_halo_integralSt env k a s)

/-- Value part of `ccl_twohalo_matter_power` (lines 263-284). -/
def ccl_twohalo_matter_powerVal (env : Cosmo) (k a : D) : D :=
  let I2h := two_halo_integralVal env k a
  let A := 1 - two_halo_integralVal env 0 a
  let Delta_v := env.dv a
  let W1 := window_functionVal env (some env.mmin) k a Delta_v .ccl_nfw
  let W2 := window_functionVal env (some env.mmin) 0 a Delta_v .ccl_nfw
  let A := A * W1 / W2
  let I2h := I2h + A
  env.linpower k a * I2h * I2h

/-- Status part of `ccl_twohalo_matter_power`; effects in source order:
the two sub-integrals, Dv_BryanNorman, the two window calls, linear power. -/
def ccl_twohalo_matter_powerSt (env : Cosmo) (k a : D) (s : St) : St :=
  let s := two_halo_integralSt env k a s
  let s := two_halo_integralSt env 0 a s
  let s := env.dv_e a s
  let s := window_functionSt env (some env.mmin) k a (env.dv a) .ccl_nfw s
  let s := window_functionSt env (some env.mmin) 0 a (env.dv a) .ccl_nfw s
  env.linpower_e k a s

/-- `ccl_twohalo_matter_power` (lines 263-284). -/
def ccl_twohalo_matter_power (env : Cosmo) (k a : D) (s : St) : D × St :=
  (ccl_twohalo_matter_powerVal env k a, ccl_twohalo_matter_powerSt env k a s)

/-- `ccl_onehalo_matter_power` (lines 290-292). -/
def ccl_onehalo_matter_power (env : Cosmo) (k a : D) (s : St) : D × St :=
  one_halo_integral env k a s

/-- Value part of `ccl_halomodel_matter_power` (lines 298-301). -/
def ccl_halomodel_matter_powerVal (env : Cosmo) (k a : D) : D :=
  ccl_twohalo_matter_powerVal env k a + one_halo_integralVal env k a

/-- Status part of `ccl_halomodel_matter_power`. -/
def ccl_halomodel_matter_powerSt (env : Cosmo) (k a : D) (s : St) : St :=
  let s := ccl_twohalo_matter_powerSt env k a s
  one_halo_integralSt env k a s

/-- `ccl_halomodel_matter_power` (lines 298-301). -/
def ccl_halomodel_matter_power (env : Cosmo) (k a : D) (s : St) : D × St :=
  (ccl_halomodel_matter_powerVal env k a, ccl_halomodel_matter_powerSt env k a s)

/-- Modelled from the spec: the window function as section 4.2 words it,
`W(mass,k,a) = mass · U(...) / ρ_mean,matter(a)` with the mean matter density
collaborator `mean_matter_density(cosmology, a)` evaluated at the requested
scale factor; everything else as in the source.  Used only to compare the
spec's wording with the source's `window_function`. -/
def window_function_specVal (env : Cosmo) (m k a odelta : D) (label : ccl_win_label) : D :=
  match label with
  | .ccl_nfw =>
    let rho_matter := env.rho_x a ccl_species_m_label 1
    let c := ccl_halo_concentrationVal env m a odelta .ccl_duffy2008_virial
    m * u_nfw_cVal env c m k a / rho_matter
  | .ccl_win_invalid => NANd

/-- Generalisation of `one_halo_integrandVal` in which the overdensity handed
to the window function (`dW`) and to the mass function (`dM`) are independent
parameters; the source integrand is the diagonal dW = dM = Dv(a). -/
def one_halo_integrand_deltasVal (env : Cosmo) (k a dW dM : D) (log10mass : ℚ) : D :=
  let halomass := env.pow 10 (some log10mass)
  let wk := window_functionVal env halomass k a dW .ccl_nfw
  let dn_dlogM := env.massfunc halomass a dM
  dn_dlogM * env.pow wk 2

/-- Status counterpart of `one_halo_integrand_deltasVal`. -/
def one_halo_integrand_deltasSt (env : Cosmo) (k a dW dM : D) (log10mass : ℚ) (s : St) : St :=
  let halomass := env.pow 10 (some log10mass)
  let s := env.dv_e a s
  let s := window_functionSt env halomass k a dW .ccl_nfw s
  env.massfunc_e halomass a dM s

/-- Paired generalised one-halo integrand. -/
def one_halo_integrand_deltas (env : Cosmo) (k a dW dM : D) (log10mass : ℚ) (s : St) : D × St :=
  (one_halo_integrand_deltasVal env k a dW dM log10mass,
   one_halo_integrand_deltasSt env k a dW dM log10mass s)

/-- Generalisation of `two_halo_integrandVal` with independent overdensities for
the window (`dW`), the mass function (`dM`) and the halo bias (`dB`). -/
def two_halo_integrand_deltasVal (env : Cosmo) (k a dW dM dB : D) (log10mass : ℚ) : D :=
  let halomass := env.pow 10 (some log10mass)
  let wk := window_functionVal env halomass k a dW .ccl_nfw
  let dn_dlogM := env.massfunc halomass a dM
  let b := env.hbias halomass a dB
  b * dn_dlogM * wk

/-- Status counterpart of `two_halo_integrand_deltasVal`. -/
def two_halo_integrand_deltasSt (env : Cosmo) (k a dW dM dB : D) (log10mass : ℚ) (s : St) : St :=
  let halomass := env.pow 10 (some log10mass)
  let s := env.dv_e a s
  let s := window_functionSt env halomass k a dW .ccl_nfw s
  let s := env.massfunc_e halomass a dM s
  env.hbias_e halomass a dB s

/-- Paired generalised two-halo integrand. -/
def two_halo_integrand_deltas (env : Cosmo) (k a dW dM dB : D) (log10mass : ℚ) (s : St) : D × St :=
  (two_halo_integrand_deltasVal env k a dW dM dB log10mass,
   two_halo_integrand_deltasSt env k a dW dM dB log10mass s)

/- Altered pipeline: identical to the source except that the body of the
Duffy ModelMismatch branch of ccl_halo_concentration is replaced by an
arbitrary value `jv` and an arbitrary status effect `je`.  Proving the entry
points insensitive to `jv` and `je` shows that branch is dead code on every
path from the entry points. -/

/-- Value part of the altered concentration: the Duffy mismatch branch returns `jv`. -/
def concentration_altVal (jv : D) (env : Cosmo) (halomass a odelta : D) (label : ccl_conc_label) : D :=
  match label with
  | .ccl_bhattacharya2011 => ccl_halo_concentrationVal env halomass a odelta label
  | .ccl_duffy2008_virial =>
    if !(dEq odelta (env.dv a)) then jv
    else
      let Mpiv := (2e12 : D) / env.h
      let A : D := 7.85
      let B : D := -0.081
      let C : D := -0.71
      A * env.pow (halomass / Mpiv) B * env.pow a (-C)
  | .ccl_constant_concentration => 4
  | .ccl_conc_invalid => NANd

/-- Status part of the altered concentration: the Duffy mismatch branch applies `je`. -/
def concentration_altSt (je : St → St) (env : Cosmo) (halomass a odelta : D) (label : ccl_conc_label) (s : St) : St :=
  match label with
  | .ccl_bhattacharya2011 => ccl_halo_concentrationSt env halomass a odelta label s
  | .ccl_duffy2008_virial =>
    let s := env.dv_e a s
    if !(dEq odelta (env.dv a)) then je s
    else s
  | .ccl_constant_concentration => s
  | .ccl_conc_invalid => { s with code := CCL_ERROR_HALOCONC }

/-- Altered window function value. -/
def window_function_altVal (jv : D) (env : Cosmo) (m k a odelta : D) (label : ccl_win_label) : D :=
  match label with
  | .ccl_nfw =>
    let rho_matter := env.rho_x 1 ccl_species_m_label 1
    let c := concentration_altVal jv env m a odelta .ccl_duffy2008_virial
    m * u_nfw_cVal env c m k a / rho_matter
  | .ccl_win_invalid => NANd

/-- Altered window function status. -/
def window_function_altSt (je : St → St) (env : Cosmo) (m k a odelta : D) (label : ccl_win_label) (s : St) : St :=
  match label with
  | .ccl_nfw =>
    let s := env.rho_x_e 1 ccl_species_m_label 1 s
    let s := concentration_altSt je env m a odelta .ccl_duffy2008_virial s
    u_nfw_cSt env 0 m k a s
  | .ccl_win_invalid => { s with code := CCL_ERROR_HALOWIN }

/-- Altered one-halo integrand value. -/
def one_halo_integrand_altVal (jv : D) (env : Cosmo) (k a : D) (log10mass : ℚ) : D :=
  let halomass := env.pow 10 (some log10mass)
  let Delta_v := env.dv a
  let wk := window_function_altVal jv env halomass k a Delta_v .ccl_nfw
  let dn_dlogM := env.massfunc halomass a Delta_v
  dn_dlogM * env.pow wk 2

/-- Altered one-halo integrand status. -/
def one_halo_integrand_altSt (je : St → St) (env : Cosmo) (k a : D) (log10mass : ℚ) (s : St) : St :=
  let halomass := env.pow 10 (some log10mass)
  let Delta_v := env.dv a
  let s := env.dv_e a s
  let s := window_function_altSt je env halomass k a Delta_v .ccl_nfw s
  env.massfunc_e halomass a Delta_v s

/-- Altered two-halo integrand value. -/
def two_halo_integrand_altVal (jv : D) (env : Cosmo) (k a : D) (log10mass : ℚ) : D :=
  let halomass := env.pow 10 (some log10mass)
  let Delta_v := env.dv a
  let wk := window_function_altVal jv env halomass k a Delta_v .ccl_nfw
  let dn_dlogM := env.massfunc halomass a Delta_v
  let b := env.hbias halomass a Delta_v
  b * dn_dlogM * wk

/-- Altered two-halo integrand status. -/
def two_halo_integrand_altSt (je : St → St) (env : Cosmo) (k a : D) (log10mass : ℚ) (s : St) : St :=
  let halomass := env.pow 10 (some log10mass)
  let Delta_v := env.dv a
  let s := env.dv_e a s
  let s := window_function_altSt je env halomass k a Delta_v .ccl_nfw s
  let s := env.massfunc_e halomass a Delta_v s
  env.hbias_e halomass a Delta_v s

/-- Altered one-halo integral value. -/
def one_halo_integral_altVal (jv : D) (env : Cosmo) (k a : D) : D :=
  let log10mmin := env.log10 (some env.mmin)
  let log10mmax := env.log10 (some env.mmax)
  let out := env.quadOut (one_halo_integrand_altVal jv env k a) log10mmin log10mmax
      env.epsabs env.epsrel env.limit env.method
  if out.1 ≠ GSL_SUCCESS then NANd else out.2

/-- Altered one-halo integral status. -/
def one_halo_integral_altSt (jv : D) (je : St → St) (env : Cosmo) (k a : D) (s : St) : St :=
  let log10mmin := env.log10 (some env.mmin)
  let log10mmax := env.log10 (some env.mmax)
  let pts := env.quadPts (one_halo_integrand_altVal jv env k a) log10mmin log10mmax
      env.epsabs env.epsrel env.limit env.method
  let sLocal := pts.foldl (fun t lm => one_halo_integrand_altSt je env k a lm t)
      { code := 0, message := s.message }
  let out := env.quadOut (one_halo_integrand_altVal jv env k a) log10mmin log10mmax
      env.epsabs env.epsrel env.limit env.method
  if out.1 ≠ GSL_SUCCESS then { code := CCL_ERROR_ONE_HALO_INT, message := one_halo_message }
  else { code := s.code, message := sLocal.message }

/-- Altered two-halo integral value. -/
def two_halo_integral_altVal (jv : D) (env : Cosmo) (k a : D) : D :=
  let log10mmin := env.log10 (some env.mmin)
  let log10mmax := env.log10 (some env.mmax)
  let out := env.quadOut (two_halo_integrand_altVal jv env k a) log10mmin log10mmax
      env.epsabs env.epsrel env.limit env.method
  if out.1 ≠ GSL_SUCCESS then NANd else out.2

/-- Altered two-halo integral status. -/
def two_halo_integral_altSt (jv : D) (je : St → St) (env : Cosmo) (k a : D) (s : St) : St :=
  let log10mmin := env.log10 (some env.mmin)
  let log10mmax := env.log10 (some env.mmax)
  let pts := env.quadPts (two_halo_integrand_altVal jv env k a) log10mmin log10mmax
      env.epsabs env.epsrel env.limit env.method
  let sLocal := pts.foldl (fun t lm => two_halo_integrand_altSt je env k a lm t)
      { code := 0, message := s.message }
  let out := env.quadOut (two_halo_integrand_altVal jv env k a) log10mmin log10mmax
      env.epsabs env.epsrel env.limit env.method
  if out.1 ≠ GSL_SUCCESS then { code := CCL_ERROR_TWO_HALO_INT, message := two_halo_message }
  else { code := s.code, message := sLocal.message }

/-- Altered two-halo power entry point. -/
def ccl_twohalo_matter_power_alt (jv : D) (je : St → St) (env : Cosmo) (k a : D) (s : St) : D × St :=
  (let I2h := two_halo_integral_altVal jv env k a
   let A := 1 - two_halo_integral_altVal jv env 0 a
   let Delta_v := env.dv a
   let W1 := window_function_altVal jv env (some env.mmin) k a Delta_v .ccl_nfw
   let W2 := window_function_altVal jv env (some env.mmin) 0 a Delta_v .ccl_nfw
   let A := A * W1 / W2
   let I2h := I2h + A
   env.linpower k a * I2h * I2h,
   let s := two_halo_integral_altSt jv je env k a s
   let s := two_halo_integral_altSt jv je env 0 a s
   let s := env.dv_e a s
   let s := window_function_altSt je env (some env.mmin) k a (env.dv a) .ccl_nfw s
   let s := window_function_altSt je env (some env.mmin) 0 a (env.dv a) .ccl_nfw s
   env.linpower_e k a s)

/-- Altered one-halo power entry point. -/
def ccl_onehalo_matter_power_alt (jv : D) (je : St → St) (env : Cosmo) (k a : D) (s : St) : D × St :=
  (one_halo_integral_altVal jv env k a, one_halo_integral_altSt jv je env k a s)

/-- Altered total power entry point. -/
def ccl_halomodel_matter_power_alt (jv : D) (je : St → St) (env : Cosmo) (k a : D) (s : St) : D × St :=
  ((ccl_twohalo_matter_power_alt jv je env k a s).1 + one_halo_integral_altVal jv env k a,
   one_halo_integral_altSt jv je env k a ((ccl_twohalo_matter_power_alt jv je env k a s).2))

/-- The empty status message. -/
def empty_message : String := ""

/-- A clean incoming status: code 0, empty message. -/
def st0 : St := { code := 0, message := empty_message }

/-- A benign concrete cosmology: every collaborator returns 1 and leaves the
status alone, the quadrature samples no points and converges to 1. -/
def baseEnv : Cosmo where
  h := some 1
  growth := fun _ => some 1
  growth_e := fun _ s => s
  sigmaM := fun _ _ => some 1
  sigmaM_e := fun _ _ s => s
  dv := fun _ => some 1
  dv_e := fun _ s => s
  rdelta := fun _ _ _ => some 1
  rdelta_e := fun _ _ _ s => s
  rho_x := fun _ _ _ => some 1
  rho_x_e := fun _ _ _ s => s
  massfunc := fun _ _ _ => some 1
  massfunc_e := fun _ _ _ s => s
  hbias := fun _ _ _ => some 1
  hbias_e := fun _ _ _ s => s
  linpower := fun _ _ => some 1
  linpower_e := fun _ _ s => s
  sin := fun _ => some 1
  cos := fun _ => some 1
  log := fun _ => some 1
  log10 := fun _ => some 1
  pow := fun _ _ => some 1
  Si := fun _ => some 1
  Ci := fun _ => some 1
  mmin := 2
  mmax := 5
  epsabs := 0
  epsrel := 1/1000
  limit := 1000
  method := 41
  quadPts := fun _ _ _ _ _ _ _ => []
  quadOut := fun _ _ _ _ _ _ _ => (0, some 1)

/-- A cosmology whose mass-function collaborator raises error 42 inside the
integrand; the quadrature samples one abscissa (13) and converges to 7. -/
def envDrop : Cosmo :=
  { baseEnv with
    massfunc_e := fun _ _ _ t => { t with code := 42 }
    quadPts := fun _ _ _ _ _ _ _ => [13]
    quadOut := fun _ _ _ _ _ _ _ => (0, some 7) }

/-- A cosmology whose density collaborator returns the scale-factor argument,
separating the density at the requested scale factor from the density at 1. -/
def envRho : Cosmo :=
  { baseEnv with rho_x := fun a _ _ => a }

/-- A cosmology whose Bryan-Norman virial-overdensity collaborator returns NaN. -/
def envNoDv : Cosmo :=
  { baseEnv with dv := fun _ => NANd }

/-- Bridging lemma: the C comparison `x == y` against a non-NaN right operand
agrees with mathematical equality. -/
theorem dEq_some_iff (x : D) (q : ℚ) : dEq x (some q) = true ↔ x = some q := by
  cases x with
  | none => simp [dEq]
  | some p => simp [dEq]

/-- C1: for every cosmology, wavenumber and scale factor, the two-halo power
term equals the linear matter power at (k,a) times the square of the corrected
mass integral I2h = two_halo(k) + (1 - two_halo(0)) · W(M_min,k,a)/W(M_min,0,a),
with W the NFW window function at the minimum integration mass. -/
theorem twohalo_power_eq_plin_times_sq_corrected_integral (env : Cosmo) (k a : D) (s : St) :
    (ccl_twohalo_matter_power env k a s).1 =
      (let I2h := two_halo_integralVal env k a +
          (1 - two_halo_integralVal env 0 a) *
            window_functionVal env (some env.mmin) k a (env.dv a) .ccl_nfw /
            window_functionVal env (some env.mmin) 0 a (env.dv a) .ccl_nfw
       env.linpower k a * I2h * I2h) := rfl

/-- C3: whenever both sub-terms succeed, the assembled halo-model power equals
exactly the sum of the one-halo and two-halo power terms computed independently
with the same inputs. -/
theorem halomodel_power_eq_sum_of_terms (env : Cosmo) (k a : D) (s : St)
    (_h1 : (ccl_twohalo_matter_power env k a s).1 ≠ NANd)
    (_h2 : (ccl_onehalo_matter_power env k a s).1 ≠ NANd) :
    (ccl_halomodel_matter_power env k a s).1 =
      (ccl_twohalo_matter_power env k a s).1 + (ccl_onehalo_matter_power env k a s).1 := rfl

/-- C3 witness: a concrete cosmology on which both sub-terms succeed and the
assembler is their exact sum. -/
theorem halomodel_power_eq_sum_of_terms_witness :
    (ccl_twohalo_matter_power baseEnv 0 (some 1) st0).1 ≠ NANd ∧
    (ccl_onehalo_matter_power baseEnv 0 (some 1) st0).1 ≠ NANd ∧
    (ccl_halomodel_matter_power baseEnv 0 (some 1) st0).1 =
      (ccl_twohalo_matter_power baseEnv 0 (some 1) st0).1 +
        (ccl_onehalo_matter_power baseEnv 0 (some 1) st0).1 :=
  ⟨by decide, by decide,
   halomodel_power_eq_sum_of_terms baseEnv 0 (some 1) st0 (by decide) (by decide)⟩

/-- C4 counterexample: the window function does not divide by the mean matter
density at the requested scale factor; at scale factor 1/2, with a density
collaborator that returns its scale-factor argument, the source value differs
from the spec formula. -/
theorem window_density_at_requested_a_false :
    (window_function envRho 1 0 (some (1/2)) (some 1) .ccl_nfw st0).1 ≠
      window_function_specVal envRho 1 0 (some (1/2)) (some 1) .ccl_nfw := by
  have h1 : (window_function envRho 1 0 (some (1/2)) (some 1) ccl_win_label.ccl_nfw st0).1 =
      some ((1 * 1 / 1 : ℚ)) := rfl
  have h2 : window_function_specVal envRho 1 0 (some (1/2)) (some 1) ccl_win_label.ccl_nfw =
      some ((1 * 1 / (1/2) : ℚ)) := rfl
  rw [h1, h2]
  intro h
  rw [Option.some_inj] at h
  norm_num at h

/-- C4 (amended): the window function equals mass times the NFW transform U
divided by the comoving mean matter density evaluated at scale factor 1
(`ccl_rho_x(cosmo, 1., matter, comoving)`), independent of the requested
scale factor. -/
theorem window_eq_mass_u_over_comoving_density (env : Cosmo) (m k a odelta : D) (s : St) :
    (window_function env m k a odelta .ccl_nfw s).1 =
      m * u_nfw_cVal env (ccl_halo_concentrationVal env m a odelta .ccl_duffy2008_virial) m k a /
        env.rho_x 1 ccl_species_m_label 1 := rfl

/-- C7: for every concentration c > 0 the NFW profile transform at wavenumber
exactly 0 returns exactly 1, by the special case that bypasses the general
expression. -/
theorem u_nfw_at_zero_wavenumber_eq_one (env : Cosmo) (cq : ℚ) (m a : D) (s : St)
    (_hc : 0 < cq) :
    (u_nfw_c env (some cq) m 0 a s).1 = 1 := rfl

/-- C7 witness: the theorem at concentration 1 in a concrete cosmology. -/
theorem u_nfw_at_zero_wavenumber_eq_one_witness :
    (0 : ℚ) < 1 ∧ (u_nfw_c baseEnv (some 1) (some 3) 0 (some 1) st0).1 = 1 :=
  ⟨by decide, u_nfw_at_zero_wavenumber_eq_one baseEnv 1 (some 3) (some 1) st0 (by decide)⟩

/-- C9: each integrand call threads one and the same overdensity value, the
Bryan-Norman virial overdensity at the requested scale factor, to the window
function, the mass function, and (for the two-halo term) the halo bias: the
source integrands are the diagonal instances of the generalised integrands. -/
theorem integrands_thread_single_overdensity (env : Cosmo) (k a : D) (lm : ℚ) (s : St) :
    one_halo_integrand env k a lm s =
      one_halo_integrand_deltas env k a (env.dv a) (env.dv a) lm s ∧
    two_halo_integrand env k a lm s =
      two_halo_integrand_deltas env k a (env.dv a) (env.dv a) (env.dv a) lm s :=
  ⟨rfl, rfl⟩

/-- C5: the Bhattacharya concentration model fails with ModelMismatch
(CCL_ERROR_CONC_DV) and returns NaN exactly when the supplied overdensity is
not 200; at overdensity 200 it returns 9 · ν^(-0.29) · (g(a)/g(1))^1.15 with
ν = 1.686/σ(M,a). -/
theorem concentration_bhattacharya_spec (env : Cosmo) (m a odelta : D) (s : St) :
    ccl_halo_concentration env m a odelta .ccl_bhattacharya2011 s =
      if odelta = (200 : D) then
        (9 * env.pow ((1.686 : D) / env.sigmaM m a) (-0.29) *
           env.pow (env.growth a / env.growth 1) 1.15,
         env.sigmaM_e m a (env.growth_e 1 (env.growth_e a s)))
      else (NANd, setStatus CCL_ERROR_CONC_DV bhat_message s) := by
  by_cases h : odelta = (200 : D)
  · subst h
    have hb : dEq (200 : D) 200 = true := (dEq_some_iff _ (((200 : ℕ) : ℚ))).mpr rfl
    simp [ccl_halo_concentration, ccl_halo_concentrationVal, ccl_halo_concentrationSt, hb]
  · have hb : dEq odelta 200 = false := by
      cases hh : dEq odelta 200 with
      | false => rfl
      | true => exact absurd ((dEq_some_iff odelta (((200 : ℕ) : ℚ))).mp hh) h
    simp [ccl_halo_concentration, ccl_halo_concentrationVal, ccl_halo_concentrationSt, hb, h]

/-- C6: when the Bryan-Norman collaborator yields a (non-NaN) value, the Duffy
virial concentration model fails with ModelMismatch (CCL_ERROR_CONC_DV) and
returns NaN exactly when the supplied overdensity differs from that value;
otherwise it returns A · (M/M_pivot)^B · a^(-C) with A = 7.85, B = -0.081,
C = -0.71 and M_pivot = 2e12/h. -/
theorem concentration_duffy_spec (env : Cosmo) (m a odelta : D) (s : St) (q : ℚ)
    (hdv : env.dv a = some q) :
    ccl_halo_concentration env m a odelta .ccl_duffy2008_virial s =
      if odelta = env.dv a then
        ((7.85 : D) * env.pow (m / ((2e12 : D) / env.h)) (-0.081) *
           env.pow a (-(-0.71 : D)),
         env.dv_e a s)
      else (NANd, setStatus CCL_ERROR_CONC_DV duffy_message (env.dv_e a s)) := by
  by_cases h : odelta = env.dv a
  · subst h
    have hb : dEq (env.dv a) (env.dv a) = true := by
      rw [hdv]
      exact (dEq_some_iff _ _).mpr rfl
    simp [ccl_halo_concentration, ccl_halo_concentrationVal, ccl_halo_concentrationSt, hb]
  · have hb : dEq odelta (env.dv a) = false := by
      cases hh : dEq odelta (env.dv a) with
      | false => rfl
      | true =>
        rw [hdv] at hh
        exact absurd (by rw [hdv]; exact (dEq_some_iff _ _).mp hh) h
    simp [ccl_halo_concentration, ccl_halo_concentrationVal, ccl_halo_concentrationSt, hb, h]

/-- C6 witness: the theorem at a concrete cosmology whose virial overdensity
collaborator returns 1, with matching overdensity argument. -/
theorem concentration_duffy_spec_witness :
    baseEnv.dv (some 1) = some 1 ∧
    ccl_halo_concentration baseEnv (some 3) (some 1) (some 1) .ccl_duffy2008_virial st0 =
      (if (some 1 : D) = baseEnv.dv (some 1) then
        ((7.85 : D) * baseEnv.pow ((some 3) / ((2e12 : D) / baseEnv.h)) (-0.081) *
           baseEnv.pow (some 1) (-(-0.71 : D)),
         baseEnv.dv_e (some 1) st0)
      else (NANd, setStatus CCL_ERROR_CONC_DV duffy_message (baseEnv.dv_e (some 1) st0))) :=
  ⟨rfl, concentration_duffy_spec baseEnv (some 3) (some 1) (some 1) st0 1 rfl⟩

/-- C2 evidence: with a mass-function collaborator that raises error 42 inside
the one-halo integrand and a converging quadrature, the integrand's status
effect latches the error (first conjunct), yet the public one-halo entry point
returns the finite quadrature result with the caller's status untouched
(second conjunct): the error raised inside the integrand never reaches the
caller's status output, because the integral wires the integrand to a local
status variable that it then discards. -/
theorem integrand_error_dropped_at_concrete_input :
    (one_halo_integrandSt envDrop (some 2) (some 1) 13 st0).code = 42 ∧
    ccl_onehalo_matter_power envDrop (some 2) (some 1) st0 = (some 7, st0) :=
  ⟨rfl, rfl⟩

/-- C8: each mass integral fails with IntegrationFailure (its value is NaN and
the caller's status code is set to the integral's error code) exactly when the
adaptive quadrature reports non-convergence; on success the quadrature result
over [log10(M_min), log10(M_max)] is returned directly — no natural-log
Jacobian factor — and the caller's status code is untouched. -/
theorem mass_integrals_fail_iff_quadrature_fails (env : Cosmo) (k a : D) (s : St) :
    ((one_halo_integralVal env k a, (one_halo_integralSt env k a s).code) =
      (let out := env.quadOut (one_halo_integrandVal env k a) (env.log10 (some env.mmin))
          (env.log10 (some env.mmax)) env.epsabs env.epsrel env.limit env.method
       if out.1 = GSL_SUCCESS then (out.2, s.code) else (NANd, CCL_ERROR_ONE_HALO_INT))) ∧
    ((two_halo_integralVal env k a, (two_halo_integralSt env k a s).code) =
      (let out := env.quadOut (two_halo_integrandVal env k a) (env.log10 (some env.mmin))
          (env.log10 (some env.mmax)) env.epsabs env.epsrel env.limit env.method
       if out.1 = GSL_SUCCESS then (out.2, s.code) else (NANd, CCL_ERROR_TWO_HALO_INT))) := by
  constructor
  · by_cases h : (env.quadOut (one_halo_integrandVal env k a) (env.log10 (some env.mmin))
        (env.log10 (some env.mmax)) env.epsabs env.epsrel env.limit env.method).1 = GSL_SUCCESS <;>
      simp [one_halo_integralVal, one_halo_integralSt, h]
  · by_cases h : (env.quadOut (two_halo_integrandVal env k a) (env.log10 (some env.mmin))
        (env.log10 (some env.mmax)) env.epsabs env.epsrel env.limit env.method).1 = GSL_SUCCESS <;>
      simp [two_halo_integralVal, two_halo_integralSt, h]

/-- When the virial-overdensity collaborator yields a value, the altered
concentration agrees with the source concentration at overdensity Dv(a) (value). -/
theorem conc_alt_val_eq (jv : D) (env : Cosmo) (m a : D) (q : ℚ) (hq : env.dv a = some q) :
    concentration_altVal jv env m a (env.dv a) .ccl_duffy2008_virial =
      ccl_halo_concentrationVal env m a (env.dv a) .ccl_duffy2008_virial := by
  have hb : dEq (env.dv a) (env.dv a) = true := by
    rw [hq]
    exact (dEq_some_iff _ _).mpr rfl
  simp [concentration_altVal, ccl_halo_concentrationVal, hb]

/-- When the virial-overdensity collaborator yields a value, the altered
concentration agrees with the source concentration at overdensity Dv(a) (status). -/
theorem conc_alt_st_eq (je : St → St) (env : Cosmo) (m a : D) (q : ℚ)
    (hq : env.dv a = some q) (s : St) :
    concentration_altSt je env m a (env.dv a) .ccl_duffy2008_virial s =
      ccl_halo_concentrationSt env m a (env.dv a) .ccl_duffy2008_virial s := by
  have hb : dEq (env.dv a) (env.dv a) = true := by
    rw [hq]
    exact (dEq_some_iff _ _).mpr rfl
  simp [concentration_altSt, ccl_halo_concentrationSt, hb]

/-- Altered and source window functions agree at overdensity Dv(a) (value). -/
theorem window_alt_val_eq (jv : D) (env : Cosmo) (m k a : D) (q : ℚ) (hq : env.dv a = some q) :
    window_function_altVal jv env m k a (env.dv a) .ccl_nfw =
      window_functionVal env m k a (env.dv a) .ccl_nfw := by
  simp only [window_function_altVal, window_functionVal, conc_alt_val_eq jv env m a q hq]

/-- Altered and source window functions agree at overdensity Dv(a) (status). -/
theorem window_alt_st_eq (je : St → St) (env : Cosmo) (m k a : D) (q : ℚ)
    (hq : env.dv a = some q) (s : St) :
    window_function_altSt je env m k a (env.dv a) .ccl_nfw s =
      window_functionSt env m k a (env.dv a) .ccl_nfw s := by
  simp only [window_function_altSt, window_functionSt, conc_alt_st_eq je env m a q hq,
    u_nfw_cSt]

/-- Altered and source one-halo integrands agree (value functions). -/
theorem one_integrand_alt_val_eq (jv : D) (env : Cosmo) (k a : D) (q : ℚ)
    (hq : env.dv a = some q) :
    one_halo_integrand_altVal jv env k a = one_halo_integrandVal env k a := by
  funext lm
  simp only [one_halo_integrand_altVal, one_halo_integrandVal]
  rw [window_alt_val_eq jv env (env.pow 10 (some lm)) k a q hq]

/-- Altered and source one-halo integrands agree (status functions). -/
theorem one_integrand_alt_st_eq (je : St → St) (env : Cosmo) (k a : D) (q : ℚ)
    (hq : env.dv a = some q) :
    one_halo_integrand_altSt je env k a = one_halo_integrandSt env k a := by
  funext lm t
  simp only [one_halo_integrand_altSt, one_halo_integrandSt]
  rw [window_alt_st_eq je env (env.pow 10 (some lm)) k a q hq]

/-- Altered and source two-halo integrands agree (value functions). -/
theorem two_integrand_alt_val_eq (jv : D) (env : Cosmo) (k a : D) (q : ℚ)
    (hq : env.dv a = some q) :
    two_halo_integrand_altVal jv env k a = two_halo_integrandVal env k a := by
  funext lm
  simp only [two_halo_integrand_altVal, two_halo_integrandVal]
  rw [window_alt_val_eq jv env (env.pow 10 (some lm)) k a q hq]

/-- Altered and source two-halo integrands agree (status functions). -/
theorem two_integrand_alt_st_eq (je : St → St) (env : Cosmo) (k a : D) (q : ℚ)
    (hq : env.dv a = some q) :
    two_halo_integrand_altSt je env k a = two_halo_integrandSt env k a := by
  funext lm t
  simp only [two_halo_integrand_altSt, two_halo_integrandSt]
  rw [window_alt_st_eq je env (env.pow 10 (some lm)) k a q hq]

/-- Altered and source one-halo integrals agree (value). -/
theorem one_integral_alt_val_eq (jv : D) (env : Cosmo) (k a : D) (q : ℚ)
    (hq : env.dv a = some q) :
    one_halo_integral_altVal jv env k a = one_halo_integralVal env k a := by
  simp only [one_halo_integral_altVal, one_halo_integralVal,
    one_integrand_alt_val_eq jv env k a q hq]

/-- Altered and source one-halo integrals agree (status). -/
theorem one_integral_alt_st_eq (jv : D) (je : St → St) (env : Cosmo) (k a : D) (q : ℚ)
    (hq : env.dv a = some q) (s : St) :
    one_halo_integral_altSt jv je env k a s = one_halo_integralSt env k a s := by
  simp only [one_halo_integral_altSt, one_halo_integralSt,
    one_integrand_alt_val_eq jv env k a q hq,
    one_integrand_alt_st_eq je env k a q hq]

/-- Altered and source two-halo integrals agree (value). -/
theorem two_integral_alt_val_eq (jv : D) (env : Cosmo) (k a : D) (q : ℚ)
    (hq : env.dv a = some q) :
    two_halo_integral_altVal jv env k a = two_halo_integralVal env k a := by
  simp only [two_halo_integral_altVal, two_halo_integralVal,
    two_integrand_alt_val_eq jv env k a q hq]

/-- Altered and source two-halo integrals agree (status). -/
theorem two_integral_alt_st_eq (jv : D) (je : St → St) (env : Cosmo) (k a : D) (q : ℚ)
    (hq : env.dv a = some q) (s : St) :
    two_halo_integral_altSt jv je env k a s = two_halo_integralSt env k a s := by
  simp only [two_halo_integral_altSt, two_halo_integralSt,
    two_integrand_alt_val_eq jv env k a q hq,
    two_integrand_alt_st_eq je env k a q hq]

/-- Altered and source two-halo power entry points agree. -/
theorem twohalo_alt_entry_eq (jv : D) (je : St → St) (env : Cosmo) (k a : D) (q : ℚ)
    (hq : env.dv a = some q) (s : St) :
    ccl_twohalo_matter_power_alt jv je env k a s = ccl_twohalo_matter_power env k a s := by
  simp only [ccl_twohalo_matter_power_alt, ccl_twohalo_matter_power,
    ccl_twohalo_matter_powerVal, ccl_twohalo_matter_powerSt,
    two_integral_alt_val_eq jv env k a q hq, two_integral_alt_val_eq jv env 0 a q hq,
    window_alt_val_eq jv env (some env.mmin) k a q hq,
    window_alt_val_eq jv env (some env.mmin) 0 a q hq,
    two_integral_alt_st_eq jv je env k a q hq, two_integral_alt_st_eq jv je env 0 a q hq,
    window_alt_st_eq je env (some env.mmin) k a q hq,
    window_alt_st_eq je env (some env.mmin) 0 a q hq]

/-- C10 (amended): provided the Bryan-Norman virial-overdensity collaborator
returns a (non-NaN) value at the requested scale factor, replacing the Duffy
ModelMismatch branch of the concentration model by an arbitrary value and an
arbitrary status effect does not change any of the three public entry points:
every reachable concentration call uses the Duffy-2008-virial model with that
same Bryan-Norman overdensity, so the ModelMismatch branch is dead code on
these paths and the model is not selectable at the window level. -/
theorem conc_mismatch_branch_dead_when_dv_defined (jv : D) (je : St → St) (env : Cosmo)
    (k a : D) (s : St) (q : ℚ) (hq : env.dv a = some q) :
    ccl_onehalo_matter_power_alt jv je env k a s = ccl_onehalo_matter_power env k a s ∧
    ccl_twohalo_matter_power_alt jv je env k a s = ccl_twohalo_matter_power env k a s ∧
    ccl_halomodel_matter_power_alt jv je env k a s = ccl_halomodel_matter_power env k a s := by
  refine ⟨?_, twohalo_alt_entry_eq jv je env k a q hq s, ?_⟩
  · simp only [ccl_onehalo_matter_power_alt, ccl_onehalo_matter_power, one_halo_integral,
      one_integral_alt_val_eq jv env k a q hq, one_integral_alt_st_eq jv je env k a q hq]
  · simp only [ccl_halomodel_matter_power_alt, ccl_halomodel_matter_power,
      ccl_halomodel_matter_powerVal, ccl_halomodel_matter_powerSt,
      twohalo_alt_entry_eq jv je env k a q hq s,
      one_integral_alt_val_eq jv env k a q hq,
      one_integral_alt_st_eq jv je env k a q hq]
    rfl

/-- C10 witness: the dead-branch equivalence at a concrete cosmology whose
virial overdensity collaborator returns 1, with concrete junk branch behavior. -/
theorem conc_mismatch_branch_dead_when_dv_defined_witness :
    baseEnv.dv (some 1) = some 1 ∧
    (ccl_onehalo_matter_power_alt (some 99) (fun t => { t with code := 77 }) baseEnv
        (some 2) (some 1) st0 = ccl_onehalo_matter_power baseEnv (some 2) (some 1) st0 ∧
      ccl_twohalo_matter_power_alt (some 99) (fun t => { t with code := 77 }) baseEnv
        (some 2) (some 1) st0 = ccl_twohalo_matter_power baseEnv (some 2) (some 1) st0 ∧
      ccl_halomodel_matter_power_alt (some 99) (fun t => { t with code := 77 }) baseEnv
        (some 2) (some 1) st0 = ccl_halomodel_matter_power baseEnv (some 2) (some 1) st0) :=
  ⟨rfl, conc_mismatch_branch_dead_when_dv_defined (some 99) (fun t => { t with code := 77 })
      baseEnv (some 2) (some 1) st0 1 rfl⟩

/-- C10 counterexample: when the Bryan-Norman collaborator returns NaN, the
IEEE comparison NaN != NaN makes the Duffy guard fire, and the public two-halo
entry point raises ModelMismatch (CCL_ERROR_CONC_DV): the branch is reachable
from a public entry point. -/
theorem conc_mismatch_reachable_when_dv_nan :
    (ccl_twohalo_matter_power envNoDv (some 2) (some 1) st0).2.code = CCL_ERROR_CONC_DV := rfl
